import Mathlib

/-!
Shallow embedding of the `timewheel` repository (an async crontab-like
scheduler) and proofs about the claims of its specification.

Source files embedded here:
* `timewheel/schedule.py` — expression compiler (`create_schedules`,
  `parse_expression_token`, `parse_nth_token`), `ScheduleTable.should_run`,
  the per-job `Schedule` state machine (`run`, `finish`).
* `timewheel/wheel.py` — the `TimeWheel` driver (`__init__`, the check pass
  of `run`, `kill_jobs`).

Python strings are embedded as `List Char`; fallible Python operations
(`int(...)`, list indexing, `%`, the whole `create_schedules` path) return
`Except PyError _`.  Machine-external concerns (the event loop, wall-clock
reading, `ZoneInfo`, logging) are passed in as explicit parameters or
omitted; the wall-clock times handed to `Schedule.run` are minute-truncated
(`datetime.replace(second=0, microsecond=0)` is the first thing `run` does
with the clock), so the embedded datetime carries no seconds.
-/

/-- Python strings are modelled as lists of characters. -/
abbrev PyStr := List Char

/-- The Python exceptions that the embedded code can raise.  `valueError`
carries the message built by the source; the other constructors mark the
exception class (their messages are irrelevant to the claims). -/
inductive PyError where
  | valueError (msg : String) : PyError
  | indexError : PyError
  | typeError (msg : String) : PyError
  | zeroDivisionError : PyError
deriving DecidableEq

/-- Equality of embedded outcomes is decidable (used to evaluate the code on
concrete inputs). -/
instance {ε α : Type} [DecidableEq ε] [DecidableEq α] : DecidableEq (Except ε α) :=
  fun a b =>
    match a, b with
    | .ok x, .ok y =>
      if h : x = y then isTrue (by rw [h]) else isFalse (fun he => h (Except.ok.inj he))
    | .error x, .error y =>
      if h : x = y then isTrue (by rw [h]) else isFalse (fun he => h (Except.error.inj he))
    | .ok _, .error _ => isFalse (fun he => Except.noConfusion he)
    | .error _, .ok _ => isFalse (fun he => Except.noConfusion he)

/-- Embeds Python `s.split(sep)` for a one-character separator `sep`
(both uses in the source split on `","` and `" "`): splits on every
occurrence, keeping empty parts, and yields `[[]]` on the empty string,
exactly as `str.split` does with an explicit separator. -/
def pySplitChar (sep : Char) : PyStr → List PyStr
  | [] => [[]]
  | c :: rest =>
    match pySplitChar sep rest with
    | [] => [[]]
    | g :: gs => if c = sep then [] :: g :: gs else (c :: g) :: gs

/-- Numeric value of a digit list (most significant first). -/
def digitsToNat (l : PyStr) : Nat :=
  l.foldl (fun acc c => 10 * acc + (c.toNat - 48)) 0

/-- Embeds Python `int(s)` on the strings reachable in this code base:
token substrings made of digits parse to their value, anything else
(tokens containing `*`, `/`, or empty strings) raises `ValueError`,
as `int` does. -/
def pyInt (l : PyStr) : Except PyError Nat :=
  if l ≠ [] ∧ l.all Char.isDigit = true then .ok (digitsToNat l)
  else .error (.valueError ("invalid literal for int() with base 10: \x27" ++ String.mk l ++ "\x27"))

/-- Embeds Python list indexing `l[i]` for a natural index: out-of-range
access raises `IndexError`. -/
def pyIndex (l : List α) (i : Nat) : Except PyError α :=
  match l.get? i with
  | some a => .ok a
  | none => .error .indexError

/-- Embeds Python `a % b` on naturals: `b = 0` raises `ZeroDivisionError`. -/
def pyMod (a b : Nat) : Except PyError Nat :=
  if b = 0 then .error .zeroDivisionError else .ok (a % b)

/-- Insert into an ascending list, used to embed Python `sorted(...)`. -/
def insertAsc (v : Nat) : List Nat → List Nat
  | [] => [v]
  | x :: xs => if v ≤ x then v :: x :: xs else x :: insertAsc v xs

/-- Embeds Python `sorted(l)` for a list of naturals (insertion sort:
same ascending result). -/
def pySorted (l : List Nat) : List Nat :=
  l.foldr insertAsc []

/-! ### A Brzozowski-derivative regex engine

`schedule.py` validates expressions with
`re.fullmatch(EXPRESSION_VALIDATOR_REGEXP, expression)` where the pattern is
`((([\d*]+|[\d*]/\d),?)+ ?){5}`.  The pattern is a plain regular expression
(no anchors, groups are only for repetition), so `fullmatch` succeeds exactly
when the whole string belongs to the pattern's language; we decide that
membership with Brzozowski derivatives. -/

/-- Regular expressions over characters: empty language, empty string,
a character class (any one character from the list), alternation,
concatenation and Kleene star. -/
inductive Regex where
  | emp : Regex
  | eps : Regex
  | cls (cs : List Char) : Regex
  | alt (r s : Regex) : Regex
  | cat (r s : Regex) : Regex
  | star (r : Regex) : Regex
deriving DecidableEq

/-- Does the regex accept the empty string? -/
def Regex.nullable : Regex → Bool
  | .emp => false
  | .eps => true
  | .cls _ => false
  | .alt r s => r.nullable || s.nullable
  | .cat r s => r.nullable && s.nullable
  | .star _ => true

/-- Smart alternation (keeps derivatives small). -/
def Regex.altS : Regex → Regex → Regex
  | .emp, s => s
  | r, .emp => r
  | r, s => .alt r s

/-- Smart concatenation (keeps derivatives small). -/
def Regex.catS : Regex → Regex → Regex
  | .emp, _ => .emp
  | _, .emp => .emp
  | .eps, s => s
  | r, .eps => r
  | r, s => .cat r s

/-- Brzozowski derivative of a regex by one character. -/
def Regex.deriv : Regex → Char → Regex
  | .emp, _ => .emp
  | .eps, _ => .emp
  | .cls cs, c => if cs.contains c then .eps else .emp
  | .alt r s, c => Regex.altS (r.deriv c) (s.deriv c)
  | .cat r s, c =>
    if r.nullable then Regex.altS (Regex.catS (r.deriv c) s) (s.deriv c)
    else Regex.catS (r.deriv c) s
  | .star r, c => Regex.catS (r.deriv c) (.star r)

/-- Whole-string match (the semantics of `re.fullmatch` for this pattern):
derive by every character, then test nullability. -/
def Regex.matchList (r : Regex) (l : PyStr) : Bool :=
  (l.foldl Regex.deriv r).nullable

/-- One-or-more repetition `r+`. -/
def Regex.plusR (r : Regex) : Regex := .cat r (.star r)

/-- Optional occurrence `r?`. -/
def Regex.optR (r : Regex) : Regex := .alt .eps r

/-- The characters of the class `[\d*]`. -/
def digitStarChars : List Char :=
  ['0', '1', '2', '3', '4', '5', '6', '7', '8', '9', '*']

/-- The characters of the class `\d`. -/
def digitChars : List Char :=
  ['0', '1', '2', '3', '4', '5', '6', '7', '8', '9']

/-- The innermost token alternative `[\d*]+|[\d*]/\d`. -/
def tokenRe : Regex :=
  .alt (Regex.plusR (.cls digitStarChars))
    (.cat (.cls digitStarChars) (.cat (.cls ['/']) (.cls digitChars)))

/-- One field group `(([\d*]+|[\d*]/\d),?)+ ?`. -/
def fieldRe : Regex :=
  .cat (Regex.plusR (.cat tokenRe (Regex.optR (.cls [','])))) (Regex.optR (.cls [' ']))

/-- The compiled validator `((([\d*]+|[\d*]/\d),?)+ ?){5}` of
`timewheel/schedule.py`. -/
def EXPRESSION_VALIDATOR_REGEXP : Regex :=
  .cat fieldRe (.cat fieldRe (.cat fieldRe (.cat fieldRe fieldRe)))

/-- The `.pattern` string of the compiled validator, used in the shape
error message. -/
def EXPRESSION_VALIDATOR_PATTERN : String :=
  "((([\\d*]+|[\\d*]/\\d),?)+ ?)\x7b5\x7d"

/-! ### The datetime model

`Schedule.run` truncates the clock reading to the minute before using it, so
the embedded datetime stores year, month, day, hour and minute only.  The
weekday is computed as Python's `datetime.weekday()` does: `0` is Monday and
`6` is Sunday, with day counting in the proleptic Gregorian calendar
(ordinal `1` = January 1 of year 1, a Monday). -/

/-- A calendar date, as returned by Python `datetime.date()`. -/
structure PyDate where
  year : Nat
  month : Nat
  day : Nat
deriving DecidableEq

/-- A minute-truncated aware datetime. -/
structure PyDateTime where
  year : Nat
  month : Nat
  day : Nat
  hour : Nat
  minute : Nat
deriving DecidableEq

/-- The date part of a datetime (Python `datetime.date()`). -/
def PyDateTime.date (t : PyDateTime) : PyDate :=
  ⟨t.year, t.month, t.day⟩

/-- Gregorian leap-year rule. -/
def isLeap (y : Nat) : Bool :=
  y % 4 = 0 && (y % 100 ≠ 0 || y % 400 = 0)

/-- Month lengths for a (non-)leap year. -/
def monthDays (leap : Bool) : List Nat :=
  [31, if leap then 29 else 28, 31, 30, 31, 30, 31, 31, 30, 31, 30, 31]

/-- Days in the year before month `m`. -/
def daysBeforeMonth (y m : Nat) : Nat :=
  ((monthDays (isLeap y)).take (m - 1)).foldl (fun a b => a + b) 0

/-- Python `datetime.toordinal()`: day count in the proleptic Gregorian
calendar, with January 1 of year 1 having ordinal 1. -/
def toOrdinal (y m d : Nat) : Nat :=
  365 * (y - 1) + (y - 1) / 4 - (y - 1) / 100 + (y - 1) / 400 + daysBeforeMonth y m + d

/-- Python `datetime.weekday()`: Monday is `0`, Sunday is `6`. -/
def PyDateTime.weekday (t : PyDateTime) : Nat :=
  (toOrdinal t.year t.month t.day + 6) % 7

/-! ### `ScheduleTable` and the expression compiler (`timewheel/schedule.py`) -/

/-- A field of the schedule table: Python stores `True` for a `*` field and
a list of integers otherwise (`Union[List[int], bool]`). -/
inductive FieldVal where
  | allF : FieldVal
  | listF (vals : List Nat) : FieldVal
deriving DecidableEq

/-- The compiled table of the five cron fields. -/
structure ScheduleTable where
  minutes : FieldVal
  hours : FieldVal
  days : FieldVal
  months : FieldVal
  weekdays : FieldVal
deriving DecidableEq

/-- One conjunct of `should_run`: `self.<field> is True or value in self.<field>`. -/
def FieldVal.matches1 : FieldVal → Nat → Bool
  | .allF, _ => true
  | .listF vals, v => decide (v ∈ vals)

/-- `ScheduleTable.should_run`: all five field checks must hold for the
given (minute-truncated) current time. -/
def ScheduleTable.should_run (tbl : ScheduleTable) (current_time : PyDateTime) : Bool :=
  tbl.minutes.matches1 current_time.minute &&
    tbl.hours.matches1 current_time.hour &&
    tbl.days.matches1 current_time.day &&
    tbl.months.matches1 current_time.month &&
    tbl.weekdays.matches1 current_time.weekday

/-- Message of the per-token upper-bound error in `parse_expression_token`. -/
def tokenValueMsg (v max_value : Nat) : String :=
  "The token value " ++ toString v ++ " is higher then the max value (" ++
    toString max_value ++ ") for the field type."

/-- Message of the nth-token upper-bound error in `parse_nth_token`. -/
def nthTokenMsg (nth max_value : Nat) : String :=
  "The nth token value " ++ toString nth ++ " is higher then the max value (" ++
    toString max_value ++ ") for the field type."

/-- `parse_nth_token`: split on `"/"`, convert the part after the slash with
`int`, reject values above `max_value`, then collect every value of
`range(start_value, max_value + 1)` whose remainder modulo the step is zero
(`value % nth` raises `ZeroDivisionError` when the step is `0`). -/
def parse_nth_token (nth_token : PyStr) (start_value max_value : Nat) :
    Except PyError (List Nat) := do
  let part ← pyIndex (pySplitChar '/' nth_token) 1
  let nth ← pyInt part
  if max_value < nth then
    .error (.valueError (nthTokenMsg nth max_value))
  else
    (List.range' start_value (max_value + 1 - start_value)).foldlM
      (fun acc value => do
        let m ← pyMod value nth
        pure (if m = 0 then acc ++ [value] else acc)) []

/-- The `for extracted_token in extracted_tokens` loop of
`parse_expression_token`, carrying the accumulated `generated_tokens`:
a bare `*` returns `True` immediately; a token containing `/` is expanded by
`parse_nth_token`; otherwise the token is converted with `int` and rejected
only when it exceeds `max_value`; the loop ends by returning
`sorted(generated_tokens)`. -/
def parseTokensLoop : List PyStr → Nat → Nat → List Nat → Except PyError FieldVal
  | [], _, _, generated_tokens => .ok (.listF (pySorted generated_tokens))
  | extracted_token :: rest, start_value, max_value, generated_tokens =>
    if extracted_token = ['*'] then .ok .allF
    else if '/' ∈ extracted_token then do
      let vals ← parse_nth_token extracted_token start_value max_value
      parseTokensLoop rest start_value max_value (generated_tokens ++ vals)
    else do
      let v ← pyInt extracted_token
      if max_value < v then .error (.valueError (tokenValueMsg v max_value))
      else parseTokensLoop rest start_value max_value (generated_tokens ++ [v])

/-- `parse_expression_token`: split the field on `","`; combining `*` with
other comma-separated tokens is an immediate `ValueError`; otherwise run the
token loop. -/
def parse_expression_token (token : PyStr) (start_value max_value : Nat) :
    Except PyError FieldVal :=
  let extracted_tokens := pySplitChar ',' token
  if 1 < extracted_tokens.length ∧ ['*'] ∈ extracted_tokens then
    .error (.valueError ("Invalid syntax for the token " ++ String.mk token))
  else
    parseTokensLoop extracted_tokens start_value max_value []

/-- The shape-validation error message of `create_schedules`. -/
def shapeMsg : String :=
  "The expression must match the pattern \x27" ++ EXPRESSION_VALIDATOR_PATTERN ++ "\x27"

/-- The `except ValueError` wrapper of `create_schedules`: a `ValueError`
raised while building the table is re-raised with the expression prepended;
every other exception (`IndexError`, `ZeroDivisionError`) propagates
untouched. -/
def wrapTokenError (expression : String) :
    Except PyError ScheduleTable → Except PyError ScheduleTable
  | .error (.valueError msg) =>
    .error (.valueError ("The expression " ++ expression ++
      " contains an invalid token. Details: " ++ msg))
  | r => r

/-- `create_schedules`: reject strings that do not fullmatch the validator
regex with the shape `ValueError`; otherwise split on single spaces and parse
the five fields (in Python's left-to-right evaluation order, each `tokens[i]`
subscript before the corresponding `parse_expression_token` call), wrapping
any `ValueError` with the expression. -/
def create_schedules (expression : String) : Except PyError ScheduleTable :=
  if Regex.matchList EXPRESSION_VALIDATOR_REGEXP expression.data = false then
    .error (.valueError shapeMsg)
  else
    let tokens := pySplitChar ' ' expression.data
    wrapTokenError expression (do
      let t0 ← pyIndex tokens 0
      let minutes ← parse_expression_token t0 0 59
      let t1 ← pyIndex tokens 1
      let hours ← parse_expression_token t1 0 23
      let t2 ← pyIndex tokens 2
      let days ← parse_expression_token t2 1 31
      let t3 ← pyIndex tokens 3
      let months ← parse_expression_token t3 1 12
      let t4 ← pyIndex tokens 4
      let weekdays ← parse_expression_token t4 0 6
      pure ⟨minutes, hours, days, months, weekdays⟩)

/-! ### The `Schedule` state machine (`timewheel/schedule.py`)

The job callable is opaque; one invocation's observable behaviour is a
`JobOutcome` (returned `None`, returned some value, or raised).  `run` awaits
the job through `asyncio.gather(..., return_exceptions=True)`, which returns
a raised exception inside the result list instead of propagating it; that is
embedded by `asyncioGather1`, whose `Except` layer is where a propagating
exception would surface. -/

/-- The observable behaviour of one job invocation. -/
inductive JobOutcome where
  | retNone : JobOutcome
  | retVal : JobOutcome
  | raised : JobOutcome
deriving DecidableEq

/-- `asyncio.gather(job(), return_exceptions=True)[0]` for one job: `none`
embeds the Python value `None`, `some o` a non-`None` result value or a
captured exception object.  With `return_exceptions` set, a raised exception
is returned, not re-raised; without it, it would propagate (the `.error`
branch, which `Schedule.run` never takes because it passes `true`). -/
def asyncioGather1 (return_exceptions : Bool) (o : JobOutcome) :
    Except PyError (Option JobOutcome) :=
  match o with
  | .retNone => .ok none
  | .retVal => .ok (some .retVal)
  | .raised =>
    if return_exceptions then .ok (some .raised)
    else .error (.valueError "unhandled exception raised by the job")

/-- The mutable attributes of `Schedule`.  `create_schedules` fills
`schedule_table`; `ZoneInfo(timezone)` and the logger are external; the job
callable is represented by the `JobOutcome` parameter of `run`. -/
structure Schedule where
  name : String
  schedule_table : ScheduleTable
  timezone : String
  excluded_dates : Option (List PyDate)
  running : Bool
  last_execution : Option PyDateTime
  stop_signal_received : Bool
deriving DecidableEq

/-- The exclusion check of `run`:
`self.excluded_dates is not None and current_time.date() in self.excluded_dates`. -/
def Schedule.excludedHit (s : Schedule) (current_time : PyDateTime) : Bool :=
  match s.excluded_dates with
  | none => false
  | some ds => ds.contains current_time.date

/-- Result of one `Schedule.run` coroutine: the post state, whether the job
was invoked (`fired`), and the `succeeded` flag logged at the end (only
meaningful when `fired`). -/
structure RunRes where
  state : Schedule
  fired : Bool
  succeeded : Bool
deriving DecidableEq

/-- `Schedule.run`, executed to completion (the coroutine awaits its job in
place).  `current_time` is the minute-truncated clock reading
`datetime.now(tz=...).replace(second=0, microsecond=0)`; `outcome` is what
the job does if invoked.  Order of checks follows the source: stop signal,
`should_run`, exclusion list, same-minute dedup; the firing branch records
`last_execution`, toggles `running` on for the duration of the await, gathers
the job with `return_exceptions=True`, marks `succeeded` false when
`result[0]` is not `None`, and leaves `running` off. -/
def Schedule.run (s : Schedule) (current_time : PyDateTime) (outcome : JobOutcome) :
    Except PyError RunRes :=
  if s.stop_signal_received then .ok ⟨s, false, true⟩
  else if s.schedule_table.should_run current_time then
    if s.excludedHit current_time then .ok ⟨s, false, true⟩
    else if s.last_execution.isNone ∨ some current_time ≠ s.last_execution then do
      let result0 ← asyncioGather1 true outcome
      .ok ⟨{ s with last_execution := some current_time, running := false },
        true, result0.isNone⟩
    else .ok ⟨s, false, true⟩
  else .ok ⟨s, false, true⟩

/-- `Schedule.finish`: set the permanent stop signal.  (The body then polls
`await asyncio.sleep(0.5)` until `running` is false — a liveness wait that
mutates nothing further.) -/
def Schedule.finish (s : Schedule) : Schedule :=
  { s with stop_signal_received := true }

/-- A sequence of completed `run` invocations, threading the schedule state
and counting how many of them invoked the job. -/
def Schedule.runSeq (s : Schedule) : List (PyDateTime × JobOutcome) →
    Except PyError (Schedule × Nat)
  | [] => .ok (s, 0)
  | (t, o) :: rest => do
    let r ← s.run t o
    let (s2, n) ← r.state.runSeq rest
    .ok (s2, (if r.fired then 1 else 0) + n)

/-- Does an embedded call raise, i.e. propagate an exception to its caller? -/
def pyRaises : Except PyError RunRes → Bool
  | .ok _ => false
  | .error _ => true

/-! ### The `TimeWheel` driver (`timewheel/wheel.py`) -/

/-- `SLEEP_TIME = 1` — the per-iteration sleep of the driver loop. -/
def SLEEP_TIME : Nat := 1

/-- The check-boundary test of `TimeWheel.run`: the literal
`timer % 60 == 0` guarding each schedule-evaluation pass. -/
def checkBoundary (timer : Nat) : Bool :=
  timer % 60 == 0

/-- `TimeWheel.__init__`: stores the schedule list and sets `running=True`.
(The loop also registers OS signal handlers — external.)  It takes no other
parameter and performs no validation. -/
structure TimeWheel where
  schedules : List Schedule
  running : Bool
deriving DecidableEq

/-- Embedded `TimeWheel` constructor. -/
def TimeWheel.init (schedules : List Schedule) : TimeWheel :=
  ⟨schedules, true⟩

/-- Embeds the Python call expression `schedule.run(args...)`.
`Schedule.run` is declared `async def run(self)` — no parameter besides
`self` — so a call with any positional argument raises `TypeError` at the
call site, before any task is created; only a zero-argument call produces
the coroutine, embedded here as running it against the ambient clock. -/
def Schedule.runCall (s : Schedule) (args : List PyDateTime)
    (clock : PyDateTime) (outcome : JobOutcome) : Except PyError RunRes :=
  if args.length = 0 then s.run clock outcome
  else .error (.typeError ("run() takes 1 positional argument but " ++
    toString (args.length + 1) ++ " were given"))

/-- One check-boundary pass of the `TimeWheel.run` loop (source lines
40–43): capture `now = datetime.now()` once, then for every schedule whose
`running` flag is false evaluate `asyncio.create_task(schedule.run(now))` —
the argument list `[now]` is exactly what the source passes. -/
def TimeWheel.checkPass (w : TimeWheel) (now clock : PyDateTime)
    (outcome : JobOutcome) : Except PyError (List RunRes) :=
  w.schedules.foldlM
    (fun acc s =>
      if s.running = false then do
        let r ← s.runCall [now] clock outcome
        pure (acc ++ [r])
      else pure acc) []

/-- The observable steps of `TimeWheel.kill_jobs`, in program order. -/
inductive ShutdownEvent where
  | drained (name : String) : ShutdownEvent
  | setRunningFalse : ShutdownEvent
deriving DecidableEq

/-- The `for schedule in self.schedules: await schedule.finish()` loop of
`kill_jobs`: drains each schedule in collection order, recording one event
per drain. -/
def drainAll : List Schedule → List Schedule × List ShutdownEvent
  | [] => ([], [])
  | s :: rest =>
    let (ds, evs) := drainAll rest
    (s.finish :: ds, .drained s.name :: evs)

/-- `TimeWheel.kill_jobs`: sequentially awaits `finish()` on every schedule
(each such await returns only after that schedule's in-flight job has
finished), and afterwards — as the last statement of the method — sets
`self.running = False`.  The returned event list is the order in which these
effects happen. -/
def TimeWheel.kill_jobs (w : TimeWheel) : TimeWheel × List ShutdownEvent :=
  let (ds, evs) := drainAll w.schedules
  (⟨ds, false⟩, evs ++ [.setRunningFalse])

/-! ### Concrete instances used by counterexamples and witnesses -/

/-- The table compiled from `"* * * * *"`: all five fields are `True`. -/
def allTable : ScheduleTable :=
  ⟨.allF, .allF, .allF, .allF, .allF⟩

/-- A freshly constructed every-minute schedule, as in the repository's own
`test_timewheel_runner` test. -/
def sExample : Schedule :=
  ⟨"my-job", allTable, "America/Sao_Paulo", none, false, none, false⟩

/-- Monday, October 4, 2021, 09:30. -/
def mondayDT : PyDateTime := ⟨2021, 10, 4, 9, 30⟩

/-- Sunday, October 3, 2021, 09:30. -/
def sundayDT : PyDateTime := ⟨2021, 10, 3, 9, 30⟩

/-- A table whose weekday field is the set `{0}` and every other field `*`. -/
def mondayTable : ScheduleTable :=
  ⟨.allF, .allF, .allF, .allF, .listF [0]⟩

/-! ### Helper lemmas -/

/-- `bind` on a successful `Except` computation. -/
theorem exceptBind_ok {α β : Type} (x : α) (f : α → Except PyError β) :
    (Except.ok x >>= f) = f x := rfl

/-- `bind` on a failed `Except` computation. -/
theorem exceptBind_error {α β : Type} (e : PyError) (f : α → Except PyError β) :
    ((Except.error e : Except PyError α) >>= f) = Except.error e := rfl

/-- Splitting a list that does not contain the separator returns the list
itself as the single part. -/
theorem pySplitChar_no_sep (sep : Char) :
    ∀ l : PyStr, sep ∉ l → pySplitChar sep l = [l] := by
  intro l
  induction l with
  | nil => intro _; rfl
  | cons c rest ih =>
    intro h
    have hc : ¬(c = sep) := fun he => h (he ▸ List.mem_cons_self c rest)
    have hr : sep ∉ rest := fun hm => h (List.mem_cons_of_mem c hm)
    simp [pySplitChar, ih hr, if_neg hc]

/-- A successful `pyInt` means a nonempty all-digit token. -/
theorem pyInt_ok_shape (tok : PyStr) (v : Nat) (h : pyInt tok = .ok v) :
    tok ≠ [] ∧ tok.all Char.isDigit = true := by
  by_cases hc : tok ≠ [] ∧ tok.all Char.isDigit = true
  · exact hc
  · rw [pyInt, if_neg hc] at h
    cases h

/-- An all-digit token cannot contain a non-digit character. -/
theorem not_mem_of_all_digits (tok : PyStr) (c : Char)
    (hall : tok.all Char.isDigit = true) (hc : Char.isDigit c = false) : c ∉ tok := by
  intro hm
  have := List.all_eq_true.mp hall c hm
  rw [hc] at this
  cases this

/-- A completed `run` either leaves the schedule untouched without firing, or
fires: the job is invoked, `last_execution` is stamped with the offered time,
`running` ends false, and `succeeded` records whether the job returned
`None`. -/
theorem run_total_cases (s : Schedule) (t : PyDateTime) (o : JobOutcome) :
    s.run t o = .ok ⟨s, false, true⟩ ∨
      s.run t o = .ok ⟨{ s with last_execution := some t, running := false },
        true, decide (o = .retNone)⟩ := by
  unfold Schedule.run
  split
  · exact Or.inl rfl
  · split
    · split
      · exact Or.inl rfl
      · split
        · right
          cases o <;> rfl
        · exact Or.inl rfl
    · exact Or.inl rfl

/-- A drained schedule's `run` is a no-op. -/
theorem run_noop_of_stop (s : Schedule) (t : PyDateTime) (o : JobOutcome)
    (h : s.stop_signal_received = true) : s.run t o = .ok ⟨s, false, true⟩ := by
  unfold Schedule.run
  rw [h]
  rfl

/-- `run` at a time equal to the recorded `last_execution` is a no-op
(the same-minute dedup check). -/
theorem run_noop_of_last (s : Schedule) (t : PyDateTime) (o : JobOutcome)
    (h : s.last_execution = some t) : s.run t o = .ok ⟨s, false, true⟩ := by
  unfold Schedule.run
  simp [h]

/-- Once `last_execution` equals `t`, a whole sequence of `run` calls at time
`t` changes nothing and never fires. -/
theorem runSeq_noop_of_last (t : PyDateTime) :
    ∀ (os : List JobOutcome) (s : Schedule), s.last_execution = some t →
      s.runSeq (os.map fun o => (t, o)) = .ok (s, 0) := by
  intro os
  induction os with
  | nil => intro s _; rfl
  | cons o rest ih =>
    intro s h
    simp [Schedule.runSeq, run_noop_of_last s t o h, exceptBind_ok, ih s h]

/-- Any sequence of completed `run` calls offering one and the same
minute-truncated time fires the job at most once. -/
theorem runSeq_same_le_one (t : PyDateTime) :
    ∀ (os : List JobOutcome) (s : Schedule) (p : Schedule × Nat),
      s.runSeq (os.map fun o => (t, o)) = .ok p → p.2 ≤ 1 := by
  intro os
  induction os with
  | nil =>
    intro s p h
    simp only [List.map_nil, Schedule.runSeq] at h
    injection h with h
    rw [← h]
    simp
  | cons o rest ih =>
    intro s p h
    simp only [List.map_cons, Schedule.runSeq] at h
    rcases run_total_cases s t o with hr | hr
    · rw [hr, exceptBind_ok] at h
      rcases hrest : Schedule.runSeq s (rest.map fun o => (t, o)) with e | q
      · rw [hrest, exceptBind_error] at h
        cases h
      · rw [hrest, exceptBind_ok] at h
        injection h with h
        have := ih s q hrest
        rw [← h]
        simpa using this
    · rw [hr, exceptBind_ok] at h
      have hnoop := runSeq_noop_of_last t rest
        { s with last_execution := some t, running := false } rfl
      rw [hnoop, exceptBind_ok] at h
      injection h with h
      rw [← h]
      simp

/-- Draining the whole collection is `finish` mapped in order, with one
`drained` event per schedule in collection order. -/
theorem drainAll_eq (ss : List Schedule) :
    drainAll ss = (ss.map Schedule.finish, ss.map fun s => ShutdownEvent.drained s.name) := by
  induction ss with
  | nil => rfl
  | cons s rest ih => simp [drainAll, ih]

/-- Sanity: the repository's canonical expression compiles to the all-`True`
table used by the concrete schedules below. -/
theorem allTable_compiles : create_schedules "* * * * *" = .ok allTable := by decide

/-! ### The claims -/

/-- C1: on a check boundary, `TimeWheel.run` is meant to dispatch every idle
schedule with the captured time as an independent task.  The code instead
calls `schedule.run(now)` while `Schedule.run` is declared with no parameter
besides `self`, so the very first dispatch raises `TypeError` at the call
site and no job is ever started — contradicting the repository's own
`test_timewheel_runner`, which asserts the job gets called.  This theorem
evaluates the embedded check pass at the failing input: a wheel holding one
freshly created every-minute schedule. -/
theorem c1_dispatch_arity_type_error (now clock : PyDateTime) (o : JobOutcome) :
    TimeWheel.checkPass (TimeWheel.init [sExample]) now clock o =
      .error (.typeError "run() takes 1 positional argument but 2 were given") := by
  unfold TimeWheel.checkPass TimeWheel.init sExample
  simp [Schedule.runCall]
  rfl

/-- C2 counterexample: the claim says the check interval is a construction
tunable with default 10 validated with `InvalidConfiguration`.  In the code
the check cadence is the literal `60` in `timer % 60 == 0` — an elapsed
timer of 10 seconds is not a check boundary (it would be under a default of
10) and 60 is — and `TimeWheel.__init__` builds a running wheel from the
schedule list alone, with no validation path at all. -/
theorem c2_interval_is_hardcoded_sixty :
    checkBoundary 10 = false ∧ checkBoundary 60 = true ∧
      (TimeWheel.init []).running = true := ⟨rfl, rfl, rfl⟩

/-- C2 amended: `TimeWheel` construction takes only the schedule list,
stores it with `running=True`, and performs no configuration validation;
there is no configurable check interval — the run loop polls every
`SLEEP_TIME = 1` second and evaluates schedules exactly when the elapsed
timer is a multiple of the hard-coded 60 seconds. -/
theorem c2_no_interval_configuration (ss : List Schedule) (t : Nat) :
    (TimeWheel.init ss).schedules = ss ∧ (TimeWheel.init ss).running = true ∧
      SLEEP_TIME = 1 ∧ (checkBoundary t = true ↔ t % 60 = 0) := by
  refine ⟨rfl, rfl, rfl, ?_⟩
  simp [checkBoundary]

/-- C3 counterexample: `kill_jobs` is claimed to set the wheel's running
flag to false first and drain afterwards; on a wheel with one schedule the
first observable step is the drain of that schedule, and the running flag is
cleared only as the last step. -/
theorem c3_drain_precedes_flag :
    (TimeWheel.kill_jobs (TimeWheel.init [sExample])).2 =
      [ShutdownEvent.drained "my-job", ShutdownEvent.setRunningFalse] ∧
      (TimeWheel.kill_jobs (TimeWheel.init [sExample])).2.head? ≠
        some ShutdownEvent.setRunningFalse := by decide

/-- C3 amended: `kill_jobs` sequentially drains every schedule in collection
order (each drain awaited to completion) and only afterwards, as its final
step, sets the wheel's running flag to false. -/
theorem c3_drains_then_stops (w : TimeWheel) :
    (TimeWheel.kill_jobs w).2 =
        (w.schedules.map fun s => ShutdownEvent.drained s.name) ++
          [ShutdownEvent.setRunningFalse] ∧
      (TimeWheel.kill_jobs w).1.running = false ∧
      (TimeWheel.kill_jobs w).1.schedules = w.schedules.map Schedule.finish := by
  unfold TimeWheel.kill_jobs
  rw [drainAll_eq]
  exact ⟨rfl, rfl, rfl⟩

/-- C4 counterexample: `"1,2,3,4,5"` is not five single-space-separated
fields, yet it fullmatches the validator regex (five repetitions of the
comma-token group, no spaces needed), passes shape validation, and then dies
with an uncaught `IndexError` on `tokens[1]` — not with the shape error the
claim promises for every malformed input. -/
theorem c4_regex_admits_non_five_field :
    Regex.matchList EXPRESSION_VALIDATOR_REGEXP ("1,2,3,4,5").data = true ∧
      create_schedules "1,2,3,4,5" = .error .indexError ∧
      PyError.indexError ≠ PyError.valueError shapeMsg := by decide

/-- C4 amended: every input the validator regex rejects fails with the shape
`ValueError` naming the expected pattern, and regex-accepted inputs proceed
to tokenization and per-field parsing; but regex acceptance does not
guarantee five single-space-separated fields, and such accepted inputs can
escape structural validation with a different, uncaught error
(`"1,2,3,4,5"` raises `IndexError`). -/
theorem c4_shape_error_iff_regex_reject (e : String)
    (h : Regex.matchList EXPRESSION_VALIDATOR_REGEXP e.data = false) :
    create_schedules e = .error (.valueError shapeMsg) ∧
      create_schedules "1,2,3,4,5" = .error .indexError := by
  constructor
  · unfold create_schedules
    rw [if_pos h]
  · decide

theorem c4_shape_error_witness :
    Regex.matchList EXPRESSION_VALIDATOR_REGEXP ("* * * *").data = false ∧
      create_schedules "* * * *" = .error (.valueError shapeMsg) :=
  ⟨by decide, (c4_shape_error_iff_regex_reject "* * * *" (by decide)).1⟩

/-- C5: once `finish` has been called the stop signal is permanently set and
every later sequence of `run` invocations — whatever matching times or job
behaviours are offered — leaves the schedule unchanged and never invokes the
job (fire count 0). -/
theorem c5_drained_never_fires (s : Schedule) (l : List (PyDateTime × JobOutcome)) :
    (s.finish).stop_signal_received = true ∧
      (s.finish).runSeq l = .ok (s.finish, 0) := by
  refine ⟨rfl, ?_⟩
  induction l with
  | nil => rfl
  | cons p rest ih =>
    obtain ⟨t, o⟩ := p
    simp [Schedule.runSeq, run_noop_of_stop (s.finish) t o rfl, exceptBind_ok, ih]

/-- C6: `run` is a no-op when the offered minute-truncated time equals the
recorded `last_execution`, and consequently a sequence of `run` invocations
all offering the same clock minute invokes the job at most once. -/
theorem c6_same_minute_at_most_once (s : Schedule) (t : PyDateTime) (o : JobOutcome)
    (os : List JobOutcome) (p : Schedule × Nat) :
    (s.last_execution = some t → s.run t o = .ok ⟨s, false, true⟩) ∧
      (s.runSeq (os.map fun o2 => (t, o2)) = .ok p → p.2 ≤ 1) :=
  ⟨fun h => run_noop_of_last s t o h, fun h => runSeq_same_le_one t os s p h⟩

/-- A schedule that already fired at `mondayDT`. -/
def sameMinuteSchedule : Schedule :=
  { sExample with last_execution := some mondayDT }

theorem c6_same_minute_witness :
    Schedule.run sameMinuteSchedule mondayDT .retNone =
        .ok ⟨sameMinuteSchedule, false, true⟩ ∧
      ((sameMinuteSchedule, 0) : Schedule × Nat).2 ≤ 1 :=
  ⟨(c6_same_minute_at_most_once sameMinuteSchedule mondayDT .retNone
      [JobOutcome.retNone, JobOutcome.retNone] (sameMinuteSchedule, 0)).1 rfl,
   (c6_same_minute_at_most_once sameMinuteSchedule mondayDT .retNone
      [JobOutcome.retNone, JobOutcome.retNone] (sameMinuteSchedule, 0)).2 (by decide)⟩

/-- C7: a completed `run` never propagates an exception to its caller —
the job is gathered with `return_exceptions=True`, so a raised exception
comes back as a value — and for a schedule dispatched idle the `running`
flag is false after `run` returns, with the raised outcome recorded as a
failed (`succeeded=false`) invocation. -/
theorem c7_job_exception_contained (s : Schedule) (t : PyDateTime) (o : JobOutcome) :
    pyRaises (s.run t o) = false ∧
      ∀ r : RunRes, s.run t o = .ok r → s.running = false →
        r.state.running = false ∧ (r.fired = true → o = .raised → r.succeeded = false) := by
  rcases run_total_cases s t o with h | h
  · refine ⟨by rw [h]; rfl, ?_⟩
    intro r hr hrun
    have heq := Except.ok.inj (h.symm.trans hr)
    rw [← heq]
    exact ⟨hrun, fun hf => absurd hf (by simp)⟩
  · refine ⟨by rw [h]; rfl, ?_⟩
    intro r hr _
    have heq := Except.ok.inj (h.symm.trans hr)
    rw [← heq]
    refine ⟨rfl, fun _ ho => ?_⟩
    rw [ho]
    rfl

/-- The result of running `sExample` against a raising job at `mondayDT`. -/
def firedRaisedRes : RunRes :=
  ⟨{ sExample with last_execution := some mondayDT, running := false }, true, false⟩

theorem c7_job_exception_witness :
    pyRaises (Schedule.run sExample mondayDT .raised) = false ∧
      firedRaisedRes.state.running = false ∧ firedRaisedRes.succeeded = false :=
  ⟨(c7_job_exception_contained sExample mondayDT .raised).1,
   ((c7_job_exception_contained sExample mondayDT .raised).2 firedRaisedRes
      (by decide) rfl).1,
   ((c7_job_exception_contained sExample mondayDT .raised).2 firedRaisedRes
      (by decide) rfl).2 rfl rfl⟩

/-- C8: a bare integer token is range-checked only against the field's upper
bound: it parses to the singleton field whenever `v ≤ max_value` — even when
`v` is below `start_value`, e.g. a literal `0` for day-of-month `[1,31]` —
and fails with the token-value-out-of-range `ValueError` exactly when
`v > max_value`. -/
theorem c8_bare_token_upper_bound_only (tok : PyStr) (v start_value max_value : Nat)
    (h : pyInt tok = .ok v) :
    (v ≤ max_value → parse_expression_token tok start_value max_value =
        .ok (.listF [v])) ∧
      (max_value < v → parse_expression_token tok start_value max_value =
        .error (.valueError (tokenValueMsg v max_value))) := by
  obtain ⟨hne, hall⟩ := pyInt_ok_shape tok v h
  have hsplit := pySplitChar_no_sep ',' tok (not_mem_of_all_digits tok ',' hall (by decide))
  have hstar : ¬(tok = ['*']) := fun he => absurd (he ▸ hall) (by decide)
  have hslash : '/' ∉ tok := not_mem_of_all_digits tok '/' hall (by decide)
  have hguard : ¬(1 < ([tok] : List PyStr).length ∧ ['*'] ∈ ([tok] : List PyStr)) := by
    simp
  constructor <;> intro hv
  · unfold parse_expression_token
    rw [hsplit, if_neg hguard]
    unfold parseTokensLoop
    rw [if_neg hstar, if_neg hslash, h, exceptBind_ok, if_neg (Nat.not_lt.mpr hv)]
    rfl
  · unfold parse_expression_token
    rw [hsplit, if_neg hguard]
    unfold parseTokensLoop
    rw [if_neg hstar, if_neg hslash, h, exceptBind_ok, if_pos hv]

theorem c8_bare_token_witness :
    pyInt ['0'] = .ok 0 ∧ parse_expression_token ['0'] 1 31 = .ok (.listF [0]) :=
  ⟨by decide, (c8_bare_token_upper_bound_only ['0'] 0 1 31 (by decide)).1 (by decide)⟩

/-- C9: `should_run` matches the weekday field against Python's
`datetime.weekday()` numbering, Monday = 0 … Sunday = 6: a table whose
weekday field is the set `{0}` can only match times whose computed weekday
is 0, and concretely it matches Monday 2021-10-04 but not Sunday
2021-10-03. -/
theorem c9_weekday_zero_is_monday (tbl : ScheduleTable) (t : PyDateTime) :
    (tbl.weekdays = .listF [0] → tbl.should_run t = true → t.weekday = 0) ∧
      mondayTable.should_run mondayDT = true ∧
      mondayTable.should_run sundayDT = false ∧
      mondayDT.weekday = 0 ∧ sundayDT.weekday = 6 := by
  refine ⟨?_, by decide, by decide, by decide, by decide⟩
  intro hw hr
  unfold ScheduleTable.should_run at hr
  rw [hw] at hr
  simp only [Bool.and_eq_true, FieldVal.matches1, decide_eq_true_eq,
    List.mem_singleton] at hr
  exact hr.2

theorem c9_weekday_witness :
    mondayTable.should_run mondayDT = true ∧ mondayDT.weekday = 0 :=
  ⟨by decide, (c9_weekday_zero_is_monday mondayTable mondayDT).1 rfl (by decide)⟩

/-- C10: `"*/0 * * * *"` fullmatches the validator regex (shape-valid), and
compiling it raises an uncaught `ZeroDivisionError` from `value % nth` in
`parse_nth_token` — not any of the compiler's `ValueError`s, since the step
value 0 passes the `nth > max_value` check and `except ValueError` does not
catch `ZeroDivisionError`. -/
theorem c10_step_zero_division :
    Regex.matchList EXPRESSION_VALIDATOR_REGEXP ("*/0 * * * *").data = true ∧
      create_schedules "*/0 * * * *" = .error .zeroDivisionError := by decide
